import Mathlib

/-!
Shallow embedding of the subscription lifecycle engine in
`packages/client/src/controllers/subscription.ts` (class `Subscription`)
together with the record types of `packages/types/src/subscription.ts`.

Modelling conventions:
* The cooperative single-threaded scheduling of the source (§5 of the spec)
  is embedded in direct style: every `async` method is a function from the
  controller state to a new state paired with a result; `await`-points are
  sequential composition.  A method that would suspend on the gating
  condition (`isEnabled` waiting for the `enabled` event) is modelled as
  returning `Res.blocked` with the state unchanged: the embedding describes
  the behaviour up to the suspension point.
* `Data` (a generic object type in TypeScript) is embedded as an association
  list of string-keyed integer fields, and the object spread
  spread of the old data with the partial update as `spreadMerge`.
* JavaScript `Map` is embedded as an association list with `Map` semantics
  (`mapSet` overwrites in place, insertion order preserved).
* `NodeJS.Timeout` handles: the `timeout` map stores per-topic slots; a slot
  carries the absolute expiry it was armed with and a `live` flag which is
  set to `false` by `clearTimeout` (cancelling the handle does not remove
  the map entry; only `Map.delete`/`Map.clear` do).
* `logger.error` calls are recorded in `errorLog`; relayer `subscribe` /
  `unsubscribe` calls and emitted events are recorded in traces so that
  claims about the transport and the event bus are expressible.
* A floating promise (a `Promise` whose result the source discards without
  `await` or `.catch`): its continuation does not run inside the spawning
  call, so the un-awaited `this.delete(topic, "Expired")` started by
  `onTimeout` is modelled as a queued entry in `pendingDeletes`, executed
  later by `runPendingDelete`, which models the event loop running that
  continuation (in the source it runs in microtasks after the spawning
  public operation has resumed its caller).  A rejection of such a floating
  promise is counted in `unhandledRejections`.
-/

namespace WCSub

/-- Embedded generic `Data`: string-keyed integer fields of a plain object. -/
abbrev Fields := List (String × Int)

/-- First-match field lookup on an embedded object. -/
def lookupField (d : Fields) (k : String) : Option Int :=
  (d.find? (fun kv => kv.1 == k)).map (fun kv => kv.2)

/-- JavaScript object spread `\x7b ...old, ...upd \x7d`: keys of `old` keep
their position with values overridden by `upd` where present; keys only in
`upd` are appended. -/
def spreadMerge (old upd : Fields) : Fields :=
  old.map (fun kv =>
    match lookupField upd kv.1 with
    | some v => (kv.1, v)
    | none => kv)
  ++ upd.filter (fun kv => !(old.any (fun kv2 => kv2.1 == kv.1)))

/-- Options record `SubscriptionOptions` of `packages/types/src/subscription.ts`:
relay-specific parameters, optional decryption key material, optional
absolute expiry timestamp. -/
structure SubscriptionOptions where
  relay : String
  decryptKeys : Option String
  expiry : Option Nat
  deriving Repr, DecidableEq

/-- Record type `SubscriptionParams<Data>` of `packages/types/src/subscription.ts`. -/
structure SubscriptionParams where
  id : String
  topic : String
  data : Fields
  opts : SubscriptionOptions
  deriving Repr, DecidableEq

/-- Lifecycle events emitted on the controller's event bus
(`SUBSCRIPTION_EVENTS.created/updated/deleted` plus the internal
`enabled`/`disabled` gating signals). -/
inductive Ev where
  | created (topic : String) (data : Fields)
  | updated (topic : String) (data : Fields) (upd : Fields)
  | deleted (topic : String) (data : Fields) (reason : String)
  | enabled
  | disabled
  deriving Repr, DecidableEq

/-- The distinguishable errors thrown by the controller (the source throws
`new Error(message)` with a distinct message per site). -/
inductive Err where
  | notFound (topic : String)
  | missingDecryptParams
  | restoreConflict
  deriving Repr, DecidableEq

/-- Result of one (direct-style) method execution: normal return, a thrown
error, or suspension on the gating condition. -/
inductive Res (α : Type) where
  | ok (a : α)
  | thrown (e : Err)
  | blocked
  deriving Repr, DecidableEq

/-- One slot of the `timeout` map: the absolute expiry the timer was armed
with, and whether the underlying `NodeJS.Timeout` handle is still live
(`clearTimeout` flips `live` to `false` without removing the slot). -/
structure TimerSlot where
  expiry : Nat
  live : Bool
  deriving Repr, DecidableEq

/-- JS `Map.has` on an association list. -/
def mapHas {α : Type} (m : List (String × α)) (k : String) : Bool :=
  m.any (fun kv => kv.1 == k)

/-- JS `Map.get` on an association list. -/
def mapGet {α : Type} (m : List (String × α)) (k : String) : Option α :=
  (m.find? (fun kv => kv.1 == k)).map (fun kv => kv.2)

/-- JS `Map.set` on an association list: overwrite in place when the key is
present, append otherwise. -/
def mapSet {α : Type} (m : List (String × α)) (k : String) (v : α) :
    List (String × α) :=
  if mapHas m k then
    m.map (fun kv => if kv.1 == k then (k, v) else kv)
  else
    m ++ [(k, v)]

/-- JS `Map.delete` on an association list. -/
def mapDelete {α : Type} (m : List (String × α)) (k : String) :
    List (String × α) :=
  m.filter (fun kv => !(kv.1 == k))

/-- State of one `Subscription` controller instance plus the traces of its
interactions with its collaborators.

`defaultTtl` is `SUBSCRIPTION_DEFAULT_TTL` imported from `../constants`, a
module not present in the sources; modelled from the spec ("Expiry defaults
to now + default TTL") as an abstract positive constant carried in the
configuration.  `now` is `Date.now()` during the current method execution;
`nextId` drives the deterministic model of relay-assigned subscription ids;
`persistFails` models whether the persistence adapter's `setItem` rejects;
`storage` is the single storage slot under this context's storage key;
`pendingDeletes` holds the floating `delete(topic, reason)` calls whose
continuations have been queued but have not yet run (see `onTimeout` and
`runPendingDelete`). -/
structure SubState where
  subscriptions : List (String × SubscriptionParams)
  timeout : List (String × TimerSlot)
  cached : List SubscriptionParams
  events : List Ev
  subscribeCalls : List (String × Fields × SubscriptionOptions)
  unsubscribeCalls : List (String × String × Option String)
  pendingDeletes : List (String × String)
  storage : Option (List SubscriptionParams)
  errorLog : List String
  unhandledRejections : Nat
  nextId : Nat
  now : Nat
  encrypted : Bool
  persistFails : Bool
  defaultTtl : Nat
  deriving Repr, DecidableEq

/-- Getter `get values()`: `Array.from(this.subscriptions.values())`. -/
def values (s : SubState) : List SubscriptionParams :=
  s.subscriptions.map (fun kv => kv.2)

/-- Getter `get topics()`: `Array.from(this.subscriptions.keys())`. -/
def topics (s : SubState) : List String :=
  s.subscriptions.map (fun kv => kv.1)

/-- Getter `get length()`: `this.subscriptions.size`. -/
def length (s : SubState) : Nat :=
  s.subscriptions.length

/-- Emission `events.emit(e)`: append to the bus trace. -/
def emit (s : SubState) (e : Ev) : SubState :=
  { s with events := s.events ++ [e] }

/-- The persistence hook: `private async persist()` writes the full value
snapshot under the storage key.  The source never installs a rejection
handler on the `this.persist()` call in `registerEventListeners`, so a
failing `setItem` leaves the state untouched, logs nothing and becomes an
unhandled promise rejection. -/
def persist (s : SubState) : SubState :=
  if s.persistFails then
    { s with unhandledRejections := s.unhandledRejections + 1 }
  else
    { s with storage := some (values s) }

/-- Emitting `SUBSCRIPTION_EVENTS.created` and running the listener
installed by `registerEventListeners`, which calls `this.persist()`. -/
def emitCreated (s : SubState) (topic : String) (data : Fields) : SubState :=
  persist (emit s (Ev.created topic data))

/-- Emitting `SUBSCRIPTION_EVENTS.updated` plus its persistence listener. -/
def emitUpdated (s : SubState) (topic : String) (data upd : Fields) : SubState :=
  persist (emit s (Ev.updated topic data upd))

/-- Emitting `SUBSCRIPTION_EVENTS.deleted` plus its persistence listener. -/
def emitDeleted (s : SubState) (topic : String) (data : Fields)
    (reason : String) : SubState :=
  persist (emit s (Ev.deleted topic data reason))

/-- The gating test of `private async isEnabled()`: the method returns at
once when `this.cached` is empty and otherwise suspends until the `enabled`
event. -/
def isEnabledBlocked (s : SubState) : Bool :=
  !s.cached.isEmpty

/-- Error message of `getSubscription`'s not-found throw. -/
def noMatchingMessage (topic : String) : String :=
  "No matching subscription with topic: " ++ topic

/-- Error message of `set`'s missing-decrypt-params throw. -/
def decryptParamsMessage : String :=
  "Decrypt params required"

/-- Error message of `restore`'s conflict throw. -/
def restoreConflictMessage : String :=
  "Restore will override already set subscription"

/-- Method `private async getSubscription(topic)`: awaits the gate, then looks the
topic up, logging and throwing when absent. -/
def getSubscription (s : SubState) (topic : String) :
    SubState × Res SubscriptionParams :=
  if isEnabledBlocked s then (s, Res.blocked)
  else
    match mapGet s.subscriptions topic with
    | none =>
        ({ s with errorLog := s.errorLog ++ [noMatchingMessage topic] },
          Res.thrown (Err.notFound topic))
    | some sub => (s, Res.ok sub)

/-- Method `public async get(topic)`: awaits the gate and returns the record's
`data`. -/
def get (s : SubState) (topic : String) : SubState × Res Fields :=
  if isEnabledBlocked s then (s, Res.blocked)
  else
    match getSubscription s topic with
    | (s1, Res.ok sub) => (s1, Res.ok sub.data)
    | (s1, Res.thrown e) => (s1, Res.thrown e)
    | (s1, Res.blocked) => (s1, Res.blocked)

/-- Method `public async update(topic, update)`: shallow-merges the partial into
the existing data, stores the record back and emits `updated`. -/
def update (s : SubState) (topic : String) (upd : Fields) :
    SubState × Res Unit :=
  if isEnabledBlocked s then (s, Res.blocked)
  else
    match getSubscription s topic with
    | (s1, Res.ok sub) =>
        let data := spreadMerge sub.data upd
        let s2 := { s1 with
          subscriptions := mapSet s1.subscriptions topic
            { sub with topic := topic, data := data } }
        (emitUpdated s2 topic data upd, Res.ok ())
    | (s1, Res.thrown e) => (s1, Res.thrown e)
    | (s1, Res.blocked) => (s1, Res.blocked)

/-- Method `public async delete(topic, reason)`: removes the record, unsubscribes
the record's relay id with its relay/decrypt options, and emits `deleted`
with the prior data and the reason. -/
def delete (s : SubState) (topic : String) (reason : String) :
    SubState × Res Unit :=
  if isEnabledBlocked s then (s, Res.blocked)
  else
    match getSubscription s topic with
    | (s1, Res.ok sub) =>
        let s2 := { s1 with
          subscriptions := mapDelete s1.subscriptions topic,
          unsubscribeCalls := s1.unsubscribeCalls ++
            [(sub.id, sub.opts.relay, sub.opts.decryptKeys)] }
        (emitDeleted s2 topic sub.data reason, Res.ok ())
    | (s1, Res.thrown e) => (s1, Res.thrown e)
    | (s1, Res.blocked) => (s1, Res.blocked)

/-- Method `public deleteTimeout(topic)`: guards on `Map.has`, fetches the handle
and calls `clearTimeout` on it.  The source never calls
`this.timeout.delete(topic)`, so the slot stays in the map with its handle
cancelled. -/
def deleteTimeout (s : SubState) (topic : String) : SubState :=
  if !(mapHas s.timeout topic) then s
  else
    match mapGet s.timeout topic with
    | none => s
    | some slot =>
        { s with timeout := mapSet s.timeout topic { slot with live := false } }

/-- Method `public resetTimeout()`: cancels every handle and clears the map. -/
def resetTimeout (s : SubState) : SubState :=
  { s with timeout := [] }

/-- Method `private onTimeout(topic)`: cancel the slot synchronously, then
start `this.delete(topic, "Expired")` as an un-awaited floating promise.
The body of `delete` begins with `await this.isEnabled()`, so nothing of it
runs inside the firing; its continuation is queued and runs in later
microtasks (after the spawning operation has resumed its caller), modelled
by the entry pushed onto `pendingDeletes` and executed by
`runPendingDelete`. -/
def onTimeout (s : SubState) (topic : String) : SubState :=
  let s1 := deleteTimeout s topic
  { s1 with pendingDeletes := s1.pendingDeletes ++ [(topic, "Expired")] }

/-- Modelling the event loop running the continuation of the oldest queued
floating `delete(topic, reason)` promise (see `onTimeout`): the deferred
`delete` executes to completion after the spawning public operation has
returned control to its caller, and a rejection of the floating promise is
an unhandled rejection. -/
def runPendingDelete (s : SubState) : SubState :=
  match s.pendingDeletes with
  | [] => s
  | (topic, reason) :: rest =>
    let s1 := { s with pendingDeletes := rest }
    match delete s1 topic reason with
    | (s2, Res.thrown _) =>
        { s2 with unhandledRejections := s2.unhandledRejections + 1 }
    | (s2, _) => s2

/-- Method `private setTimeout(topic, expiry)`: idempotent arm — no-op when a slot
exists; fire synchronously via `onTimeout` when the remaining ttl is not
positive; otherwise schedule a one-shot timer and record the slot. -/
def setTimeout (s : SubState) (topic : String) (expiry : Nat) : SubState :=
  if mapHas s.timeout topic then s
  else if (expiry : Int) - (s.now : Int) ≤ 0 then onTimeout s topic
  else { s with timeout := mapSet s.timeout topic { expiry := expiry, live := true } }

/-- Expiry resolution `opts.expiry || Date.now() + SUBSCRIPTION_DEFAULT_TTL` (JavaScript `||`:
`0` and `undefined` both fall through to the default). -/
def resolveExpiry (e : Option Nat) (dflt : Nat) : Nat :=
  match e with
  | some v => if v == 0 then dflt else v
  | none => dflt

/-- The relay-assigned subscription id for the next `subscribe` call
(modelled deterministically from the call counter). -/
def freshId (s : SubState) : String :=
  toString s.nextId

/-- Method `private async subscribeAndSet(topic, data, opts)`: subscribe through
the relayer (recorded in the call trace, yielding a fresh id), resolve the
expiry, store the record and arm the timer. -/
def subscribeAndSet (s : SubState) (topic : String) (data : Fields)
    (opts : SubscriptionOptions) : SubState :=
  let id := freshId s
  let s1 := { s with
    nextId := s.nextId + 1,
    subscribeCalls := s.subscribeCalls ++ [(topic, data, opts)] }
  let expiry := resolveExpiry opts.expiry (s1.now + s1.defaultTtl)
  let s2 := { s1 with
    subscriptions := mapSet s1.subscriptions topic
      { id := id, topic := topic, data := data, opts := opts } }
  setTimeout s2 topic expiry

/-- Method `public async set(topic, data, opts)`: awaits the gate; on a present
topic delegates to `update` (the call is not awaited in the source, so
`set` itself resolves `void` and a rejection of the delegated `update`
would go unhandled); on a fresh topic validates decrypt params for
encrypted contexts, subscribes-and-sets, and emits `created`. -/
def set (s : SubState) (topic : String) (data : Fields)
    (opts : SubscriptionOptions) : SubState × Res Unit :=
  if isEnabledBlocked s then (s, Res.blocked)
  else if mapHas s.subscriptions topic then
    match update s topic data with
    | (s1, Res.ok _) => (s1, Res.ok ())
    | (s1, Res.thrown _) =>
        ({ s1 with unhandledRejections := s1.unhandledRejections + 1 },
          Res.ok ())
    | (s1, Res.blocked) => (s1, Res.ok ())
  else if s.encrypted && opts.decryptKeys.isNone then
    ({ s with errorLog := s.errorLog ++ [decryptParamsMessage] },
      Res.thrown Err.missingDecryptParams)
  else
    let s1 := subscribeAndSet s topic data opts
    (emitCreated s1 topic data, Res.ok ())

/-- Method `private async enable()`: clear the cache and emit `enabled`, releasing
every operation suspended in `isEnabled`. -/
def enable (s : SubState) : SubState :=
  emit { s with cached := [] } Ev.enabled

/-- Method `private async disable()`: snapshot the current values into the cache
unless a cache is already pending, clear all timers, emit `disabled`. -/
def disable (s : SubState) : SubState :=
  let s1 := if s.cached.isEmpty then { s with cached := values s } else s
  emit (resetTimeout s1) Ev.disabled

/-- Method `private async reset()` — the reconnect replay: disable, re-subscribe
every cached record with its original topic/data/opts, then enable. -/
def reset (s : SubState) : SubState :=
  let s1 := disable s
  let s2 := s1.cached.foldl
    (fun acc sub => subscribeAndSet acc sub.topic sub.data sub.opts) s1
  enable s2

/-- Method `private async restore()` — restore-on-init: read the persisted
snapshot (`this.client.storage.getItem`, modelled by the `storage` slot);
return when absent or empty; log and abort (the throw is caught by the
surrounding `try`, which calls `logger.error` twice on this path: once at
the throw site and once in the `catch`) when the store is already
populated; otherwise cache the snapshot, re-subscribe every record and
enable. -/
def restore (s : SubState) : SubState :=
  match s.storage with
  | none => s
  | some persisted =>
    if persisted.isEmpty then s
    else if !s.subscriptions.isEmpty then
      { s with errorLog := s.errorLog ++
          [restoreConflictMessage, restoreConflictMessage] }
    else
      let s1 := { s with cached := persisted }
      let s2 := persisted.foldl
        (fun acc sub => subscribeAndSet acc sub.topic sub.data sub.opts) s1
      enable s2

/-- Method `public async init()`: restore on initialization. -/
def init (s : SubState) : SubState :=
  restore s

/-- A quiescent controller instance at `Date.now() = 100`: empty store, no
timers, enabled gate, plaintext context, reliable persistence, default TTL
1000. -/
def baseState : SubState :=
  { subscriptions := [], timeout := [], cached := [], events := [],
    subscribeCalls := [], unsubscribeCalls := [], pendingDeletes := [], storage := none,
    errorLog := [], unhandledRejections := 0, nextId := 0, now := 100,
    encrypted := false, persistFails := false, defaultTtl := 1000 }

/-- A record that was subscribed at `Date.now() = 0` without an explicit
`opts.expiry`, so its effective expiry was `0 + defaultTtl = 1000`. -/
def replaySub : SubscriptionParams :=
  { id := "0", topic := "a", data := [("x", 1)],
    opts := { relay := "r", decryptKeys := none, expiry := none } }

/-- The controller at reconnect time `Date.now() = 500`, holding
`replaySub` with its timer armed at the original effective expiry 1000. -/
def replayState : SubState :=
  { subscriptions := [("a", replaySub)],
    timeout := [("a", { expiry := 1000, live := true })],
    cached := [], events := [], subscribeCalls := [], unsubscribeCalls := [], pendingDeletes := [],
    storage := none, errorLog := [], unhandledRejections := 0, nextId := 1,
    now := 500, encrypted := false, persistFails := false,
    defaultTtl := 1000 }

/-- A record with an explicit expiry of 50. -/
def dueSub : SubscriptionParams :=
  { id := "7", topic := "a", data := [("x", 1)],
    opts := { relay := "r", decryptKeys := none, expiry := some 50 } }

/-- The controller at `Date.now() = 50` holding `dueSub` with its timer
armed and due: the state in which that timer fires. -/
def dueState : SubState :=
  { subscriptions := [("a", dueSub)],
    timeout := [("a", { expiry := 50, live := true })],
    cached := [], events := [], subscribeCalls := [], unsubscribeCalls := [], pendingDeletes := [],
    storage := none, errorLog := [], unhandledRejections := 0, nextId := 8,
    now := 50, encrypted := false, persistFails := false, defaultTtl := 1000 }

/-- The controller holding `dueSub` while the persistence adapter rejects
every write (`persistFails`). -/
def failingPersistState : SubState :=
  { subscriptions := [("a", dueSub)],
    timeout := [("a", { expiry := 50, live := true })],
    cached := [], events := [], subscribeCalls := [], unsubscribeCalls := [], pendingDeletes := [],
    storage := some [dueSub], errorLog := [], unhandledRejections := 0,
    nextId := 8, now := 10, encrypted := false, persistFails := true,
    defaultTtl := 1000 }

/-! ### Association-list lemmas for the embedded `Map` -/

theorem mapHas_cons {α : Type} (a : String × α) (t : List (String × α))
    (k : String) : mapHas (a :: t) k = ((a.1 == k) || mapHas t k) := rfl

theorem mapGet_cons {α : Type} (a : String × α) (t : List (String × α))
    (k : String) :
    mapGet (a :: t) k = if (a.1 == k) = true then some a.2 else mapGet t k := by
  unfold mapGet
  rw [List.find?_cons]
  by_cases h : (a.1 == k) = true
  · rw [if_pos h, h]
    rfl
  · rw [if_neg h, Bool.eq_false_iff.mpr h]

theorem mapHas_eq_isSome {α : Type} (m : List (String × α)) (k : String) :
    mapHas m k = (mapGet m k).isSome := by
  induction m with
  | nil => rfl
  | cons a t ih =>
    rw [mapHas_cons, mapGet_cons]
    by_cases h : (a.1 == k) = true
    · rw [if_pos h, h]
      rfl
    · rw [if_neg h, Bool.eq_false_iff.mpr h]
      simpa using ih

theorem mapGet_eq_none_of_not_has {α : Type} (m : List (String × α))
    (k : String) (h : mapHas m k = false) : mapGet m k = none := by
  have h2 := mapHas_eq_isSome m k
  rw [h] at h2
  exact Option.not_isSome_iff_eq_none.mp (by rw [← h2]; simp)

theorem mapHas_of_mapGet_some {α : Type} (m : List (String × α)) (k : String)
    (v : α) (h : mapGet m k = some v) : mapHas m k = true := by
  rw [mapHas_eq_isSome, h]
  rfl

theorem mapGet_append {α : Type} (m1 m2 : List (String × α)) (k : String) :
    mapGet (m1 ++ m2) k = Option.or (mapGet m1 k) (mapGet m2 k) := by
  unfold mapGet
  rw [List.find?_append]
  cases m1.find? (fun kv => kv.1 == k) <;> rfl

theorem mapGet_mapReplace_self {α : Type} (m : List (String × α))
    (k : String) (v : α) (h : mapHas m k = true) :
    mapGet (m.map (fun kv => if kv.1 == k then (k, v) else kv)) k = some v := by
  induction m with
  | nil => simp [mapHas] at h
  | cons a t ih =>
    rw [mapHas_cons] at h
    by_cases ha : (a.1 == k) = true
    · rw [List.map_cons, if_pos ha, mapGet_cons]
      simp
    · have ht : mapHas t k = true := by
        rcases Bool.or_eq_true_iff.mp h with h1 | h2
        · exact absurd h1 ha
        · exact h2
      rw [List.map_cons, if_neg ha, mapGet_cons, if_neg ha]
      exact ih ht

theorem mapGet_mapSet_self {α : Type} (m : List (String × α)) (k : String)
    (v : α) : mapGet (mapSet m k v) k = some v := by
  unfold mapSet
  by_cases h : mapHas m k = true
  · rw [if_pos h]
    exact mapGet_mapReplace_self m k v h
  · rw [if_neg h, mapGet_append,
      mapGet_eq_none_of_not_has m k (Bool.eq_false_iff.mpr h)]
    rw [mapGet_cons]
    simp

theorem mapGet_mapDelete_self {α : Type} (m : List (String × α))
    (k : String) : mapGet (mapDelete m k) k = none := by
  induction m with
  | nil => rfl
  | cons a t ih =>
    by_cases ha : (a.1 == k) = true
    · simpa [mapDelete, List.filter_cons, ha] using ih
    · have ha2 : (a.1 == k) = false := Bool.eq_false_iff.mpr ha
      simp only [mapDelete, List.filter_cons, ha2, Bool.not_false, if_true]
      rw [mapGet_cons, if_neg ha]
      simpa [mapDelete] using ih

theorem mapReplace_keys {α : Type} (m : List (String × α)) (k : String)
    (v : α) :
    (m.map (fun kv => if kv.1 == k then (k, v) else kv)).map (fun kv => kv.1)
      = m.map (fun kv => kv.1) := by
  induction m with
  | nil => rfl
  | cons a t ih =>
    by_cases ha : (a.1 == k) = true
    · have hak : a.1 = k := by simpa using ha
      simp only [List.map_cons]
      rw [if_pos ha, ih, hak]
    · simp only [List.map_cons, if_neg ha, ih]

theorem countKey_eq_countP_keys {α : Type} (l : List (String × α))
    (u : String) :
    l.countP (fun kv => kv.1 == u)
      = (l.map (fun kv => kv.1)).countP (fun x => x == u) := by
  rw [List.countP_map]
  rfl

theorem countKey_mapSet_of_has {α : Type} (m : List (String × α))
    (k : String) (v : α) (u : String) (h : mapHas m k = true) :
    (mapSet m k v).countP (fun kv => kv.1 == u)
      = m.countP (fun kv => kv.1 == u) := by
  unfold mapSet
  rw [if_pos h, countKey_eq_countP_keys, mapReplace_keys,
    ← countKey_eq_countP_keys]

theorem countKey_eq_zero_of_not_has {α : Type} (m : List (String × α))
    (k : String) (h : mapHas m k = false) :
    m.countP (fun kv => kv.1 == k) = 0 := by
  rw [List.countP_eq_zero]
  intro a ha
  intro hak
  have : mapHas m k = true := by
    unfold mapHas
    rw [List.any_eq_true]
    exact ⟨a, ha, hak⟩
  rw [h] at this
  exact Bool.false_ne_true this

/-! ### Shallow-merge lemmas -/

theorem find?_filter_of_imp {α : Type} (l : List α) (p g : α → Bool)
    (h : ∀ a, p a = true → g a = true) :
    (l.filter g).find? p = l.find? p := by
  induction l with
  | nil => rfl
  | cons a t ih =>
    rw [List.filter_cons]
    by_cases hp : p a = true
    · rw [if_pos (h a hp), List.find?_cons, List.find?_cons, hp]
    · by_cases hg : g a = true
      · rw [if_pos hg, List.find?_cons, List.find?_cons,
          Bool.eq_false_iff.mpr hp, ih]
      · rw [if_neg hg, List.find?_cons, Bool.eq_false_iff.mpr hp, ih]


theorem mapGet_spreadMerge (old upd : Fields) (k : String) :
    mapGet (spreadMerge old upd) k =
      Option.or (mapGet upd k) (mapGet old k) := by
  have hpf : ((fun kv : String × Int => kv.1 == k) ∘
      (fun kv : String × Int =>
        match lookupField upd kv.1 with
        | some v => (kv.1, v)
        | none => kv)) = fun kv : String × Int => kv.1 == k := by
    funext kv
    cases h : lookupField upd kv.1 <;> simp [Function.comp, h]
  unfold spreadMerge
  rw [mapGet_append]
  have hmap : mapGet (old.map (fun kv =>
      match lookupField upd kv.1 with
      | some v => (kv.1, v)
      | none => kv)) k =
      Option.map (fun kv : String × Int => kv.2)
        (Option.map (fun kv0 : String × Int =>
          match lookupField upd kv0.1 with
          | some v => (kv0.1, v)
          | none => kv0)
        (old.find? (fun kv => kv.1 == k))) := by
    unfold mapGet
    rw [List.find?_map, hpf]
  rw [hmap]
  cases hfind : old.find? (fun kv => kv.1 == k) with
  | none =>
    have hnone : mapGet old k = none := by
      unfold mapGet
      rw [hfind]
      rfl
    have hany : old.any (fun kv2 => kv2.1 == k) = false := by
      have h2 := mapHas_eq_isSome old k
      rw [hnone] at h2
      simpa [mapHas] using h2
    have himp : ∀ kv : String × Int, (kv.1 == k) = true →
        (!old.any (fun kv2 => kv2.1 == kv.1)) = true := by
      intro kv hkv
      have hk : kv.1 = k := by simpa using hkv
      rw [hk, hany]
      rfl
    have hfil : mapGet (upd.filter (fun kv =>
        !old.any (fun kv2 => kv2.1 == kv.1))) k = mapGet upd k := by
      unfold mapGet
      rw [find?_filter_of_imp upd _ _ himp]
    rw [hfil, hnone]
    cases mapGet upd k <;> rfl
  | some kv0 =>
    have hk2 : kv0.1 = k := by
      have hk := List.find?_some hfind
      simpa using hk
    have hold : mapGet old k = some kv0.2 := by
      unfold mapGet
      rw [hfind]
      rfl
    simp only [Option.map_some']
    rw [hk2]
    cases hupd : lookupField upd k with
    | some v =>
      have hu : mapGet upd k = some v := hupd
      simp [hu, Option.or, Option.map]
    | none =>
      have hu : mapGet upd k = none := hupd
      simp [hu, hold, Option.or, Option.map]

/-- The observational content of the object spread: a field of the merge is
the partial's field when present, the old object's field otherwise. -/
theorem lookupField_spreadMerge (old upd : Fields) (k : String) :
    lookupField (spreadMerge old upd) k =
      Option.or (lookupField upd k) (lookupField old k) :=
  mapGet_spreadMerge old upd k

/-! ### Projection lemmas for the effect helpers -/

@[simp] theorem emit_subscriptions (s : SubState) (e : Ev) :
    (emit s e).subscriptions = s.subscriptions := rfl

@[simp] theorem emit_timeout (s : SubState) (e : Ev) :
    (emit s e).timeout = s.timeout := rfl

@[simp] theorem emit_cached (s : SubState) (e : Ev) :
    (emit s e).cached = s.cached := rfl

@[simp] theorem emit_events (s : SubState) (e : Ev) :
    (emit s e).events = s.events ++ [e] := rfl

@[simp] theorem emit_subscribeCalls (s : SubState) (e : Ev) :
    (emit s e).subscribeCalls = s.subscribeCalls := rfl

@[simp] theorem emit_unsubscribeCalls (s : SubState) (e : Ev) :
    (emit s e).unsubscribeCalls = s.unsubscribeCalls := rfl

@[simp] theorem emit_storage (s : SubState) (e : Ev) :
    (emit s e).storage = s.storage := rfl

@[simp] theorem emit_errorLog (s : SubState) (e : Ev) :
    (emit s e).errorLog = s.errorLog := rfl

@[simp] theorem emit_unhandledRejections (s : SubState) (e : Ev) :
    (emit s e).unhandledRejections = s.unhandledRejections := rfl

@[simp] theorem emit_nextId (s : SubState) (e : Ev) :
    (emit s e).nextId = s.nextId := rfl

@[simp] theorem emit_now (s : SubState) (e : Ev) : (emit s e).now = s.now := rfl

@[simp] theorem emit_encrypted (s : SubState) (e : Ev) :
    (emit s e).encrypted = s.encrypted := rfl

@[simp] theorem emit_persistFails (s : SubState) (e : Ev) :
    (emit s e).persistFails = s.persistFails := rfl

@[simp] theorem emit_defaultTtl (s : SubState) (e : Ev) :
    (emit s e).defaultTtl = s.defaultTtl := rfl

@[simp] theorem emit_pendingDeletes (s : SubState) (e : Ev) :
    (emit s e).pendingDeletes = s.pendingDeletes := rfl

@[simp] theorem persist_subscriptions (s : SubState) :
    (persist s).subscriptions = s.subscriptions := by
  unfold persist
  split <;> rfl

@[simp] theorem persist_timeout (s : SubState) :
    (persist s).timeout = s.timeout := by
  unfold persist
  split <;> rfl

@[simp] theorem persist_cached (s : SubState) :
    (persist s).cached = s.cached := by
  unfold persist
  split <;> rfl

@[simp] theorem persist_events (s : SubState) :
    (persist s).events = s.events := by
  unfold persist
  split <;> rfl

@[simp] theorem persist_subscribeCalls (s : SubState) :
    (persist s).subscribeCalls = s.subscribeCalls := by
  unfold persist
  split <;> rfl

@[simp] theorem persist_unsubscribeCalls (s : SubState) :
    (persist s).unsubscribeCalls = s.unsubscribeCalls := by
  unfold persist
  split <;> rfl

@[simp] theorem persist_errorLog (s : SubState) :
    (persist s).errorLog = s.errorLog := by
  unfold persist
  split <;> rfl

@[simp] theorem persist_nextId (s : SubState) :
    (persist s).nextId = s.nextId := by
  unfold persist
  split <;> rfl

@[simp] theorem persist_now (s : SubState) : (persist s).now = s.now := by
  unfold persist
  split <;> rfl

@[simp] theorem persist_encrypted (s : SubState) :
    (persist s).encrypted = s.encrypted := by
  unfold persist
  split <;> rfl

@[simp] theorem persist_persistFails (s : SubState) :
    (persist s).persistFails = s.persistFails := by
  unfold persist
  split <;> rfl

@[simp] theorem persist_defaultTtl (s : SubState) :
    (persist s).defaultTtl = s.defaultTtl := by
  unfold persist
  split <;> rfl

@[simp] theorem persist_pendingDeletes (s : SubState) :
    (persist s).pendingDeletes = s.pendingDeletes := by
  unfold persist
  split <;> rfl

theorem persist_storage_of_fails (s : SubState) (h : s.persistFails = true) :
    (persist s).storage = s.storage := by
  unfold persist
  rw [if_pos h]

theorem persist_unhandled_of_fails (s : SubState) (h : s.persistFails = true) :
    (persist s).unhandledRejections = s.unhandledRejections + 1 := by
  unfold persist
  rw [if_pos h]

/-! ### Execution-shape lemmas for the controller operations -/

theorem isEnabledBlocked_nil (s : SubState) (h : s.cached = []) :
    isEnabledBlocked s = false := by
  unfold isEnabledBlocked
  rw [h]
  rfl

theorem not_isEnabledBlocked (s : SubState) (h : s.cached = []) :
    ¬ isEnabledBlocked s = true := by
  rw [isEnabledBlocked_nil s h]
  exact Bool.false_ne_true

theorem getSubscription_some (s : SubState) (t : String)
    (sub : SubscriptionParams) (hc : s.cached = [])
    (hget : mapGet s.subscriptions t = some sub) :
    getSubscription s t = (s, Res.ok sub) := by
  unfold getSubscription
  rw [if_neg (not_isEnabledBlocked s hc), hget]

theorem getSubscription_none (s : SubState) (t : String)
    (hc : s.cached = []) (hget : mapGet s.subscriptions t = none) :
    getSubscription s t =
      ({ s with errorLog := s.errorLog ++ [noMatchingMessage t] },
        Res.thrown (Err.notFound t)) := by
  unfold getSubscription
  rw [if_neg (not_isEnabledBlocked s hc), hget]

theorem get_some (s : SubState) (t : String) (sub : SubscriptionParams)
    (hc : s.cached = []) (hget : mapGet s.subscriptions t = some sub) :
    get s t = (s, Res.ok sub.data) := by
  unfold get
  rw [if_neg (not_isEnabledBlocked s hc), getSubscription_some s t sub hc hget]

theorem get_none (s : SubState) (t : String)
    (hc : s.cached = []) (hget : mapGet s.subscriptions t = none) :
    get s t = ({ s with errorLog := s.errorLog ++ [noMatchingMessage t] },
      Res.thrown (Err.notFound t)) := by
  unfold get
  rw [if_neg (not_isEnabledBlocked s hc), getSubscription_none s t hc hget]

theorem update_present (s : SubState) (t : String) (u : Fields)
    (sub : SubscriptionParams) (hc : s.cached = [])
    (hget : mapGet s.subscriptions t = some sub) :
    update s t u =
      (emitUpdated { s with
          subscriptions := mapSet s.subscriptions t
                             ({ sub with
                                topic := t,
                                data := spreadMerge sub.data u }) }
        t (spreadMerge sub.data u) u, Res.ok ()) := by
  unfold update
  rw [if_neg (not_isEnabledBlocked s hc), getSubscription_some s t sub hc hget]

theorem delete_present (s : SubState) (t r : String)
    (sub : SubscriptionParams) (hc : s.cached = [])
    (hget : mapGet s.subscriptions t = some sub) :
    delete s t r =
      (emitDeleted { s with
          subscriptions := mapDelete s.subscriptions t,
          unsubscribeCalls := s.unsubscribeCalls ++
            [(sub.id, sub.opts.relay, sub.opts.decryptKeys)] }
        t sub.data r, Res.ok ()) := by
  unfold delete
  rw [if_neg (not_isEnabledBlocked s hc), getSubscription_some s t sub hc hget]

theorem set_present (s : SubState) (t : String) (d : Fields)
    (opts : SubscriptionOptions) (hc : s.cached = [])
    (hhas : mapHas s.subscriptions t = true) :
    set s t d opts = update s t d := by
  have hsome : (mapGet s.subscriptions t).isSome = true := by
    rw [← mapHas_eq_isSome, hhas]
  obtain ⟨sub, hget⟩ := Option.isSome_iff_exists.mp hsome
  unfold set
  rw [if_neg (not_isEnabledBlocked s hc), if_pos hhas,
    update_present s t d sub hc hget]

theorem set_fresh (s : SubState) (t : String) (d : Fields)
    (opts : SubscriptionOptions) (hc : s.cached = [])
    (hhas : mapHas s.subscriptions t = false)
    (henc : (s.encrypted && opts.decryptKeys.isNone) = false) :
    set s t d opts = (emitCreated (subscribeAndSet s t d opts) t d,
      Res.ok ()) := by
  unfold set
  rw [if_neg (not_isEnabledBlocked s hc),
    if_neg (by rw [hhas]; exact Bool.false_ne_true),
    if_neg (by rw [henc]; exact Bool.false_ne_true)]

theorem set_missing_decrypt (s : SubState) (t : String) (d : Fields)
    (opts : SubscriptionOptions) (hc : s.cached = [])
    (hhas : mapHas s.subscriptions t = false)
    (henc : s.encrypted = true) (hdk : opts.decryptKeys = none) :
    set s t d opts =
      ({ s with errorLog := s.errorLog ++ [decryptParamsMessage] },
        Res.thrown Err.missingDecryptParams) := by
  unfold set
  rw [if_neg (not_isEnabledBlocked s hc),
    if_neg (by rw [hhas]; exact Bool.false_ne_true),
    if_pos (by rw [henc, hdk]; rfl)]

theorem subscribeAndSet_future (s : SubState) (t : String) (d : Fields)
    (opts : SubscriptionOptions)
    (htim : mapHas s.timeout t = false)
    (hfut : s.now < resolveExpiry opts.expiry (s.now + s.defaultTtl)) :
    subscribeAndSet s t d opts =
      { s with
        nextId := s.nextId + 1,
        subscribeCalls := s.subscribeCalls ++ [(t, d, opts)],
        subscriptions := mapSet s.subscriptions t
          { id := freshId s, topic := t, data := d, opts := opts },
        timeout := mapSet s.timeout t
          { expiry := resolveExpiry opts.expiry (s.now + s.defaultTtl),
            live := true } } := by
  unfold subscribeAndSet setTimeout
  simp only []
  rw [if_neg (show ¬ mapHas s.timeout t = true by
      rw [htim]; exact Bool.false_ne_true),
    if_neg (show ¬ ((resolveExpiry opts.expiry (s.now + s.defaultTtl) : Int)
        - (s.now : Int) ≤ 0) by omega)]

theorem subscribeAndSet_past (s : SubState) (t : String) (d : Fields)
    (opts : SubscriptionOptions)
    (htim : mapHas s.timeout t = false)
    (hpast : resolveExpiry opts.expiry (s.now + s.defaultTtl) ≤ s.now) :
    subscribeAndSet s t d opts =
      { s with
        nextId := s.nextId + 1,
        subscribeCalls := s.subscribeCalls ++ [(t, d, opts)],
        subscriptions := mapSet s.subscriptions t
          { id := freshId s, topic := t, data := d, opts := opts },
        pendingDeletes := s.pendingDeletes ++ [(t, "Expired")] } := by
  unfold subscribeAndSet setTimeout
  dsimp only
  rw [if_neg (show ¬ mapHas s.timeout t = true by
      rw [htim]; exact Bool.false_ne_true),
    if_pos (show ((resolveExpiry opts.expiry (s.now + s.defaultTtl) : Int)
        - (s.now : Int) ≤ 0) by omega)]
  unfold onTimeout deleteTimeout
  dsimp only
  rw [if_pos (show (!mapHas s.timeout t) = true by rw [htim]; rfl)]

theorem runPendingDelete_single (s : SubState) (t reason : String)
    (sub : SubscriptionParams)
    (hpd : s.pendingDeletes = [(t, reason)])
    (hc : s.cached = [])
    (hget : mapGet s.subscriptions t = some sub) :
    runPendingDelete s =
      emitDeleted { s with
        pendingDeletes := [],
        subscriptions := mapDelete s.subscriptions t,
        unsubscribeCalls := s.unsubscribeCalls ++
          [(sub.id, sub.opts.relay, sub.opts.decryptKeys)] }
      t sub.data reason := by
  unfold runPendingDelete
  rw [hpd]
  dsimp only
  rw [delete_present { s with pendingDeletes := [] } t reason sub
    (by simpa using hc) (by simpa using hget)]

/-! ### Claim theorems -/

/-- C4: for a topic absent from the Store, `set` on an encrypted context
whose opts lack decryption key material fails with
`MissingDecryptParamsError`, never creates a subscription, never calls
Transport subscribe, and leaves the Store unchanged. -/
theorem claim_c4 (s : SubState) (t : String) (d : Fields)
    (opts : SubscriptionOptions)
    (hc : s.cached = [])
    (hhas : mapHas s.subscriptions t = false)
    (henc : s.encrypted = true)
    (hdk : opts.decryptKeys = none) :
    (set s t d opts).2 = Res.thrown Err.missingDecryptParams ∧
    (set s t d opts).1.subscriptions = s.subscriptions ∧
    (set s t d opts).1.subscribeCalls = s.subscribeCalls ∧
    (set s t d opts).1.timeout = s.timeout ∧
    (set s t d opts).1.events = s.events ∧
    (set s t d opts).1 =
      { s with errorLog := s.errorLog ++ [decryptParamsMessage] } := by
  rw [set_missing_decrypt s t d opts hc hhas henc hdk]
  exact ⟨rfl, rfl, rfl, rfl, rfl, rfl⟩

/-- Witness for C4 at a concrete encrypted-context input. -/
theorem claim_c4_witness :
    (set { baseState with encrypted := true } "a" [("x", 1)]
        { relay := "r", decryptKeys := none, expiry := none }).2
      = Res.thrown Err.missingDecryptParams :=
  (claim_c4 { baseState with encrypted := true } "a" [("x", 1)]
    { relay := "r", decryptKeys := none, expiry := none }
    rfl rfl rfl rfl).1

/-- C5: restore-on-init against a Store that already contains at least one
record fails on the conflict path, mutates nothing except logging the
error, and the error does not propagate to the caller of `init` (the
`try/catch` of `restore` makes the operation total). -/
theorem claim_c5 (s : SubState) (ps : List SubscriptionParams)
    (hstore : s.storage = some ps)
    (hps : ps ≠ [])
    (hsub : s.subscriptions ≠ []) :
    restore s = { s with errorLog := s.errorLog ++
        [restoreConflictMessage, restoreConflictMessage] } ∧
    (restore s).subscriptions = s.subscriptions ∧
    (restore s).cached = s.cached ∧
    (restore s).timeout = s.timeout ∧
    (restore s).events = s.events ∧
    (restore s).storage = s.storage := by
  have hpe : ps.isEmpty = false := by
    cases ps with
    | nil => exact absurd rfl hps
    | cons a l => rfl
  have hse : s.subscriptions.isEmpty = false := by
    cases h2 : s.subscriptions with
    | nil => exact absurd h2 hsub
    | cons a l => rfl
  have hmain : restore s = { s with errorLog := s.errorLog ++
      [restoreConflictMessage, restoreConflictMessage] } := by
    unfold restore
    rw [hstore]
    dsimp only
    rw [if_neg (by rw [hpe]; exact Bool.false_ne_true),
      if_pos (by rw [hse]; rfl)]
  rw [hmain]
  exact ⟨rfl, rfl, rfl, rfl, rfl, rfl⟩

/-- Witness for C5 at a concrete conflicting state. -/
theorem claim_c5_witness :
    restore { dueState with storage := some [replaySub] } =
      { dueState with
        storage := some [replaySub],
        errorLog := [restoreConflictMessage, restoreConflictMessage] } :=
  (claim_c5 { dueState with storage := some [replaySub] } [replaySub]
    rfl (by decide) (by decide)).1

/-- C10: the gate suspends exactly when the cached snapshot is non-empty;
`disable` on an empty cache and empty Store leaves the cache empty (so
nothing later suspends even though the `disabled` transition occurred);
`enable` unconditionally empties the cache and emits the `enabled` event
releasing all waiters. -/
theorem claim_c10 (s s2 : SubState)
    (hc : s2.cached = [])
    (hsub : s2.subscriptions = []) :
    (isEnabledBlocked s = true ↔ s.cached ≠ []) ∧
    (disable s2).cached = [] ∧
    isEnabledBlocked (disable s2) = false ∧
    (disable s2).events = s2.events ++ [Ev.disabled] ∧
    (enable s).cached = [] ∧
    isEnabledBlocked (enable s) = false ∧
    (enable s).events = s.events ++ [Ev.enabled] := by
  refine ⟨?_, ?_, ?_, ?_, rfl, rfl, rfl⟩
  · unfold isEnabledBlocked
    cases h : s.cached with
    | nil => simp [h]
    | cons a l => simp [h]
  · unfold disable resetTimeout values
    rw [hc, hsub]
    rfl
  · unfold disable resetTimeout values isEnabledBlocked
    rw [hc, hsub]
    rfl
  · unfold disable resetTimeout
    rw [hc]
    rfl

/-- Witness for C10 at concrete states. -/
theorem claim_c10_witness :
    (disable baseState).cached = [] ∧
    isEnabledBlocked (disable baseState) = false :=
  ⟨(claim_c10 baseState baseState rfl rfl).2.1,
   (claim_c10 baseState baseState rfl rfl).2.2.1⟩

/-- C2: `set` on an already-present topic behaves identically to `update`
(it is that call), performs no Transport subscribe, and preserves the
one-record-per-topic discipline of the Store. -/
theorem claim_c2 (s : SubState) (t : String) (d : Fields)
    (opts : SubscriptionOptions)
    (hc : s.cached = [])
    (hhas : mapHas s.subscriptions t = true) :
    set s t d opts = update s t d ∧
    (set s t d opts).1.subscribeCalls = s.subscribeCalls ∧
    (∀ u, ((set s t d opts).1.subscriptions).countP (fun kv => kv.1 == u)
        = (s.subscriptions).countP (fun kv => kv.1 == u)) ∧
    ((s.subscriptions).countP (fun kv => kv.1 == t) = 1 →
      ((set s t d opts).1.subscriptions).countP (fun kv => kv.1 == t) = 1) := by
  have hsome : (mapGet s.subscriptions t).isSome = true := by
    rw [← mapHas_eq_isSome, hhas]
  obtain ⟨sub, hget⟩ := Option.isSome_iff_exists.mp hsome
  have hset := set_present s t d opts hc hhas
  have hupd := update_present s t d sub hc hget
  have hsubs : (set s t d opts).1.subscriptions =
      mapSet s.subscriptions t
        ({ sub with topic := t, data := spreadMerge sub.data d }) := by
    rw [hset, hupd]
    simp [emitUpdated]
  refine ⟨hset, ?_, ?_, ?_⟩
  · rw [hset, hupd]
    simp [emitUpdated]
  · intro u
    rw [hsubs]
    exact countKey_mapSet_of_has s.subscriptions t _ u hhas
  · intro h1
    rw [hsubs, countKey_mapSet_of_has s.subscriptions t _ t hhas]
    exact h1

/-- Witness for C2 at a concrete present-topic input. -/
theorem claim_c2_witness :
    set dueState "a" [("y", 2)]
        { relay := "r", decryptKeys := none, expiry := none }
      = update dueState "a" [("y", 2)] :=
  (claim_c2 dueState "a" [("y", 2)]
    { relay := "r", decryptKeys := none, expiry := none } rfl rfl).1

/-- C7: at most one live timer per topic — arming a timer for a topic that
already has one is a no-op, so arming two expiries for the same topic
without an intervening delete leaves exactly one live timer, the first. -/
theorem claim_c7 (s s2 : SubState) (t : String) (e1 e2 : Nat)
    (htim : mapHas s.timeout t = false)
    (hfut : s.now < e1)
    (harmed : mapHas s2.timeout t = true) :
    setTimeout s2 t e2 = s2 ∧
    ((setTimeout (setTimeout s t e1) t e2).timeout).countP
        (fun kv => kv.1 == t) = 1 ∧
    mapGet (setTimeout (setTimeout s t e1) t e2).timeout t
      = some { expiry := e1, live := true } := by
  have hnoop : ∀ s3 : SubState, mapHas s3.timeout t = true →
      setTimeout s3 t e2 = s3 := by
    intro s3 h3
    unfold setTimeout
    rw [if_pos h3]
  have h1 : setTimeout s t e1 =
      { s with timeout := mapSet s.timeout t { expiry := e1, live := true } } := by
    unfold setTimeout
    rw [if_neg (by rw [htim]; exact Bool.false_ne_true),
      if_neg (show ¬ ((e1 : Int) - (s.now : Int) ≤ 0) by omega)]
  have h2 : mapHas (setTimeout s t e1).timeout t = true := by
    rw [h1]
    exact mapHas_of_mapGet_some _ t _ (mapGet_mapSet_self s.timeout t _)
  refine ⟨hnoop s2 harmed, ?_, ?_⟩
  · rw [hnoop _ h2, h1]
    show (mapSet s.timeout t { expiry := e1, live := true }).countP
      (fun kv => kv.1 == t) = 1
    unfold mapSet
    rw [if_neg (by rw [htim]; exact Bool.false_ne_true),
      List.countP_append, countKey_eq_zero_of_not_has s.timeout t htim]
    simp [List.countP_cons]
  · rw [hnoop _ h2, h1]
    exact mapGet_mapSet_self s.timeout t _

/-- Witness for C7 at a concrete double-arm input. -/
theorem claim_c7_witness :
    mapGet (setTimeout (setTimeout baseState "a" 900) "a" 950).timeout "a"
      = some { expiry := 900, live := true } :=
  (claim_c7 baseState dueState "a" 900 950 rfl (by decide) rfl).2.2

/-- C6: evaluating the timer-firing path at a due timer.  `onTimeout` does
call `delete(topic, "Expired")` (a floating promise whose continuation,
once the event loop runs it, removes the record and emits the `deleted`
event with reason `"Expired"`), but `deleteTimeout` only calls
`clearTimeout` on the handle and never removes the topic's entry from the
`timeout` map, so the slot survives the firing — and even the completed
delete — and a later arm for the same topic is a silent no-op. -/
theorem claim_c6_bug :
    (onTimeout dueState "a").timeout
      = [("a", { expiry := 50, live := false })] ∧
    mapHas (onTimeout dueState "a").timeout "a" = true ∧
    (onTimeout dueState "a").pendingDeletes = [("a", "Expired")] ∧
    setTimeout (onTimeout dueState "a") "a" 999 = onTimeout dueState "a" ∧
    mapGet (runPendingDelete (onTimeout dueState "a")).subscriptions "a"
      = none ∧
    (runPendingDelete (onTimeout dueState "a")).events
      = [Ev.deleted "a" [("x", 1)] "Expired"] ∧
    (runPendingDelete (onTimeout dueState "a")).timeout
      = [("a", { expiry := 50, live := false })] ∧
    setTimeout (runPendingDelete (onTimeout dueState "a")) "a" 999
      = runPendingDelete (onTimeout dueState "a") :=
  ⟨rfl, rfl, rfl, rfl, rfl, rfl, rfl, rfl⟩

/-- C8 counterexample: a fresh `set` with an already-past expiry fires the
handler immediately instead of scheduling (no timer slot is created), but
the `delete(t, "Expired")` it starts is an un-awaited floating promise:
within the `set` call only the `created` event is emitted and the record
is still in the Store when `set` returns — no `deleted` event with reason
`"Expired"` is produced before `set` returns control to its caller. -/
theorem claim_c8_counterexample :
    (set baseState "a" [("x", 1)]
        { relay := "r", decryptKeys := none, expiry := some 1 }).2
      = Res.ok () ∧
    (set baseState "a" [("x", 1)]
        { relay := "r", decryptKeys := none, expiry := some 1 }).1.events
      = [Ev.created "a" [("x", 1)]] ∧
    ¬ Ev.deleted "a" [("x", 1)] "Expired" ∈
      (set baseState "a" [("x", 1)]
        { relay := "r", decryptKeys := none, expiry := some 1 }).1.events ∧
    mapGet (set baseState "a" [("x", 1)]
        { relay := "r", decryptKeys := none, expiry := some 1
        }).1.subscriptions "a"
      = some { id := "0", topic := "a", data := [("x", 1)],
               opts := { relay := "r", decryptKeys := none,
                         expiry := some 1 } } :=
  ⟨rfl, rfl, by decide, rfl⟩

/-- C8 (amended): for a fresh topic whose resolved expiry is already in
the past, the expiry handler is invoked immediately rather than scheduled
— no timer slot is ever created — and it starts `delete(t, "Expired")`
during the `set` call; but that delete is an un-awaited floating promise,
so within `set` only `created` is emitted, and the record removal and the
`deleted` event with reason `"Expired"` happen when the event loop runs
the floating delete's continuation, after `set` has returned control to
its caller. -/
theorem claim_c8_amended (s : SubState) (t : String) (d : Fields)
    (opts : SubscriptionOptions)
    (hc : s.cached = [])
    (hhas : mapHas s.subscriptions t = false)
    (henc : (s.encrypted && opts.decryptKeys.isNone) = false)
    (htim : mapHas s.timeout t = false)
    (hpast : resolveExpiry opts.expiry (s.now + s.defaultTtl) ≤ s.now)
    (hpd : s.pendingDeletes = []) :
    (set s t d opts).2 = Res.ok () ∧
    (set s t d opts).1.timeout = s.timeout ∧
    mapHas (set s t d opts).1.timeout t = false ∧
    (set s t d opts).1.events = s.events ++ [Ev.created t d] ∧
    (set s t d opts).1.pendingDeletes = [(t, "Expired")] ∧
    (runPendingDelete (set s t d opts).1).events
      = s.events ++ [Ev.created t d, Ev.deleted t d "Expired"] ∧
    mapGet (runPendingDelete (set s t d opts).1).subscriptions t = none := by
  have hsets : set s t d opts =
      (emitCreated { s with
        nextId := s.nextId + 1,
        subscribeCalls := s.subscribeCalls ++ [(t, d, opts)],
        subscriptions := mapSet s.subscriptions t
          { id := freshId s, topic := t, data := d, opts := opts },
        pendingDeletes := s.pendingDeletes ++ [(t, "Expired")] } t d,
        Res.ok ()) := by
    rw [set_fresh s t d opts hc hhas henc,
      subscribeAndSet_past s t d opts htim hpast]
  have h1c : (set s t d opts).1.cached = [] := by
    rw [hsets]
    simp [emitCreated, hc]
  have h1g : mapGet (set s t d opts).1.subscriptions t
      = some { id := freshId s, topic := t, data := d, opts := opts } := by
    rw [hsets]
    simp only [emitCreated, persist_subscriptions, emit_subscriptions]
    exact mapGet_mapSet_self s.subscriptions t _
  have h1pd : (set s t d opts).1.pendingDeletes = [(t, "Expired")] := by
    rw [hsets]
    simp [emitCreated, hpd]
  have h1ev : (set s t d opts).1.events = s.events ++ [Ev.created t d] := by
    rw [hsets]
    simp [emitCreated]
  have hdr := runPendingDelete_single (set s t d opts).1 t "Expired"
    { id := freshId s, topic := t, data := d, opts := opts } h1pd h1c h1g
  refine ⟨by rw [hsets], by rw [hsets]; simp [emitCreated],
    by rw [hsets]; simp [emitCreated, htim], h1ev, h1pd, ?_, ?_⟩
  · rw [hdr]
    simp [emitDeleted, h1ev]
  · rw [hdr]
    simp only [emitDeleted, persist_subscriptions, emit_subscriptions]
    exact mapGet_mapDelete_self _ t

/-- Witness for C8 (amended) at a concrete past-expiry input. -/
theorem claim_c8_amended_witness :
    (runPendingDelete (set baseState "a" [("x", 1)]
        { relay := "r", decryptKeys := none, expiry := some 1 }).1).events
      = [Ev.created "a" [("x", 1)], Ev.deleted "a" [("x", 1)] "Expired"] := by
  have h := (claim_c8_amended baseState "a" [("x", 1)]
    { relay := "r", decryptKeys := none, expiry := some 1 }
    rfl rfl rfl rfl (by decide) rfl).2.2.2.2.2.1
  simpa [baseState] using h

/-- C3 counterexample: `replaySub` was created without an explicit
`opts.expiry`; its original effective expiry was 1000 (armed in
`replayState`'s timer slot).  The reconnect replay at time 500 re-arms the
timer at `500 + defaultTtl = 1500`, i.e. reset from the reconnect time,
not relative to the original expiry. -/
theorem claim_c3_counterexample :
    (mapGet replayState.timeout "a").map (fun sl => sl.expiry)
      = some 1000 ∧
    mapGet (reset replayState).timeout "a"
      = some { expiry := 1500, live := true } ∧
    ¬ (1500 : Nat) = 1000 :=
  ⟨rfl, rfl, by decide⟩

theorem disable_of_nil_cache (s : SubState) (hc : s.cached = []) :
    disable s = emit { s with cached := values s, timeout := [] }
      Ev.disabled := by
  unfold disable resetTimeout
  rw [hc]
  rfl

theorem reset_single (s : SubState) (r : SubscriptionParams)
    (hc : s.cached = [])
    (hsubs : s.subscriptions = [(r.topic, r)])
    (hfut : s.now < resolveExpiry r.opts.expiry (s.now + s.defaultTtl)) :
    reset s = enable { s with
      cached := [r],
      events := s.events ++ [Ev.disabled],
      nextId := s.nextId + 1,
      subscribeCalls := s.subscribeCalls ++ [(r.topic, r.data, r.opts)],
      subscriptions := mapSet s.subscriptions r.topic
        { id := freshId s, topic := r.topic, data := r.data, opts := r.opts },
      timeout := [(r.topic,
        { expiry := resolveExpiry r.opts.expiry (s.now + s.defaultTtl),
          live := true })] } := by
  have hvals : values s = [r] := by
    unfold values
    rw [hsubs]
    rfl
  unfold reset
  rw [disable_of_nil_cache s hc]
  dsimp only [emit]
  rw [hvals]
  simp only [List.foldl_cons, List.foldl_nil]
  rw [subscribeAndSet_future _ r.topic r.data r.opts (by rfl) (by exact hfut)]
  rfl

/-- C3 (amended): during reconnect replay every cached record is
re-subscribed through the Transport with its original topic/data/opts and
re-inserted with the fresh transport-assigned id; the timer is re-armed at
`opts.expiry` when the record's opts carry a (nonzero) expiry — relative
to the original expiry — but a record whose opts carry no expiry gets a
fresh `replay-now + defaultTtl` timer, i.e. reset from the reconnect
time. -/
theorem claim_c3_amended (s : SubState) (r : SubscriptionParams)
    (hc : s.cached = [])
    (hsubs : s.subscriptions = [(r.topic, r)])
    (hfut : s.now < resolveExpiry r.opts.expiry (s.now + s.defaultTtl)) :
    (reset s).subscribeCalls = s.subscribeCalls ++ [(r.topic, r.data, r.opts)] ∧
    mapGet (reset s).subscriptions r.topic =
      some { id := freshId s, topic := r.topic, data := r.data,
             opts := r.opts } ∧
    (reset s).timeout = [(r.topic,
      { expiry := resolveExpiry r.opts.expiry (s.now + s.defaultTtl),
        live := true })] ∧
    (reset s).cached = [] ∧
    (reset s).events = s.events ++ [Ev.disabled, Ev.enabled] := by
  rw [reset_single s r hc hsubs hfut]
  refine ⟨by simp [enable], ?_, by simp [enable], by simp [enable], ?_⟩
  · simp only [enable, emit_subscriptions]
    show mapGet (mapSet s.subscriptions r.topic _) r.topic = _
    exact mapGet_mapSet_self s.subscriptions r.topic _
  · simp [enable]

/-- Witness for C3 (amended) at a concrete record carrying an explicit
original expiry, re-armed at that original expiry. -/
theorem claim_c3_amended_witness :
    (reset { replayState with
        subscriptions := [("a", dueSub)],
        timeout := [("a", { expiry := 50, live := true })],
        now := 30 }).timeout
      = [("a", { expiry := 50, live := true })] := by
  have h := (claim_c3_amended { replayState with
      subscriptions := [("a", dueSub)],
      timeout := [("a", { expiry := 50, live := true })],
      now := 30 } dueSub rfl rfl (by decide)).2.2.1
  simpa [dueSub] using h

/-- C1 counterexample: `set` with an `opts.expiry` already in the past
succeeds (resolves `void`), but the firing has started a floating
`delete(topic, "Expired")` whose continuation — queued before the caller's
follow-up `get` even starts — removes the record before that `get`
reaches its store lookup (`runPendingDelete` models the event loop running
it in between), so `get` fails with `NotFoundError` instead of returning
the data: the claim's unqualified "after set succeeds, get returns d"
fails at this input. -/
theorem claim_c1_counterexample :
    (set baseState "topicA" [("x", 1)]
        { relay := "r", decryptKeys := none, expiry := some 1 }).2
      = Res.ok () ∧
    (get (runPendingDelete (set baseState "topicA" [("x", 1)]
        { relay := "r", decryptKeys := none, expiry := some 1 }).1)
        "topicA").2 = Res.thrown (Err.notFound "topicA") ∧
    ¬ (get (runPendingDelete (set baseState "topicA" [("x", 1)]
        { relay := "r", decryptKeys := none, expiry := some 1 }).1)
        "topicA").2 = Res.ok [("x", 1)] :=
  ⟨rfl, rfl, by decide⟩

/-- C1 (amended): for a fresh topic whose resolved expiry lies in the
future, `set` then `get` returns the data; `update` shallow-merges the
partial into the data (fields of the partial overwrite same-named fields,
all other fields are retained) and `get` returns the merge; `delete` then
`get` fails with `NotFoundError`. -/
theorem claim_c1_amended (s : SubState) (t : String) (d p : Fields)
    (opts : SubscriptionOptions)
    (hc : s.cached = [])
    (hhas : mapHas s.subscriptions t = false)
    (henc : (s.encrypted && opts.decryptKeys.isNone) = false)
    (htim : mapHas s.timeout t = false)
    (hfut : s.now < resolveExpiry opts.expiry (s.now + s.defaultTtl)) :
    (set s t d opts).2 = Res.ok () ∧
    (get (set s t d opts).1 t).2 = Res.ok d ∧
    (update (set s t d opts).1 t p).2 = Res.ok () ∧
    (get (update (set s t d opts).1 t p).1 t).2
      = Res.ok (spreadMerge d p) ∧
    (∀ k, lookupField (spreadMerge d p) k
        = Option.or (lookupField p k) (lookupField d k)) ∧
    (delete (update (set s t d opts).1 t p).1 t "done").2 = Res.ok () ∧
    (get (delete (update (set s t d opts).1 t p).1 t "done").1 t).2
      = Res.thrown (Err.notFound t) := by
  have hset : set s t d opts =
      (emitCreated { s with
        nextId := s.nextId + 1,
        subscribeCalls := s.subscribeCalls ++ [(t, d, opts)],
        subscriptions := mapSet s.subscriptions t
          { id := freshId s, topic := t, data := d, opts := opts },
        timeout := mapSet s.timeout t
          { expiry := resolveExpiry opts.expiry (s.now + s.defaultTtl),
            live := true } } t d, Res.ok ()) := by
    rw [set_fresh s t d opts hc hhas henc,
      subscribeAndSet_future s t d opts htim hfut]
  have h1c : (set s t d opts).1.cached = [] := by
    rw [hset]
    simp [emitCreated, hc]
  have h1g : mapGet (set s t d opts).1.subscriptions t
      = some { id := freshId s, topic := t, data := d, opts := opts } := by
    rw [hset]
    simp only [emitCreated, persist_subscriptions, emit_subscriptions]
    exact mapGet_mapSet_self s.subscriptions t _
  have hupd := update_present (set s t d opts).1 t p
    { id := freshId s, topic := t, data := d, opts := opts } h1c h1g
  have h2c : (update (set s t d opts).1 t p).1.cached = [] := by
    rw [hupd]
    simp [emitUpdated, h1c]
  have h2g : mapGet (update (set s t d opts).1 t p).1.subscriptions t
      = some { id := freshId s, topic := t, data := spreadMerge d p,
               opts := opts } := by
    rw [hupd]
    simp only [emitUpdated, persist_subscriptions, emit_subscriptions]
    exact mapGet_mapSet_self _ t _
  have hdel := delete_present (update (set s t d opts).1 t p).1 t "done"
    { id := freshId s, topic := t, data := spreadMerge d p, opts := opts }
    h2c h2g
  have h3c : (delete (update (set s t d opts).1 t p).1 t "done").1.cached
      = [] := by
    rw [hdel]
    simp [emitDeleted, h2c]
  have h3g : mapGet
      (delete (update (set s t d opts).1 t p).1 t "done").1.subscriptions t
      = none := by
    rw [hdel]
    simp only [emitDeleted, persist_subscriptions, emit_subscriptions]
    exact mapGet_mapDelete_self _ t
  refine ⟨by rw [hset], ?_, by rw [hupd], ?_, ?_, by rw [hdel], ?_⟩
  · rw [get_some (set s t d opts).1 t
      { id := freshId s, topic := t, data := d, opts := opts } h1c h1g]
  · rw [get_some (update (set s t d opts).1 t p).1 t
      { id := freshId s, topic := t, data := spreadMerge d p, opts := opts }
      h2c h2g]
  · exact fun k => lookupField_spreadMerge d p k
  · rw [get_none (delete (update (set s t d opts).1 t p).1 t "done").1 t
      h3c h3g]

/-- Witness for C1 (amended) at the spec's scenario input. -/
theorem claim_c1_amended_witness :
    (get (set baseState "topicA" [("x", 1)]
        { relay := "r", decryptKeys := none, expiry := none }).1
        "topicA").2 = Res.ok [("x", 1)] :=
  (claim_c1_amended baseState "topicA" [("x", 1)] [("y", 2)]
    { relay := "r", decryptKeys := none, expiry := none }
    rfl rfl rfl rfl (by decide)).2.1

/-- C9 counterexample: an `update` whose triggered persistence write fails
resolves normally and retains the in-memory mutation, but the failure is
not logged anywhere (the error log stays empty) — it only becomes an
unhandled promise rejection — refuting the claim's "is logged". -/
theorem claim_c9_counterexample :
    (update failingPersistState "a" [("y", 2)]).2 = Res.ok () ∧
    mapGet (update failingPersistState "a" [("y", 2)]).1.subscriptions "a"
      = some { id := "7", topic := "a", data := [("x", 1), ("y", 2)],
               opts := { relay := "r", decryptKeys := none,
                         expiry := some 50 } } ∧
    (update failingPersistState "a" [("y", 2)]).1.unhandledRejections = 1 ∧
    (update failingPersistState "a" [("y", 2)]).1.errorLog = [] ∧
    (update failingPersistState "a" [("y", 2)]).1.storage = some [dueSub] :=
  ⟨rfl, rfl, rfl, rfl, rfl⟩

/-- C9 (amended): a failing persistence write triggered by `set`, `update`
or `delete` never rolls back or blocks the in-memory mutation and never
surfaces to the original caller (the operation still resolves `ok` and the
stored snapshot is simply left stale), but it is not logged either: the
error log is unchanged and the rejection goes unhandled. -/
theorem claim_c9_amended (s : SubState) (t t2 r : String) (d p : Fields)
    (opts : SubscriptionOptions) (sub : SubscriptionParams)
    (hpf : s.persistFails = true)
    (hc : s.cached = [])
    (hget : mapGet s.subscriptions t = some sub)
    (hhas2 : mapHas s.subscriptions t2 = false)
    (henc : (s.encrypted && opts.decryptKeys.isNone) = false)
    (htim2 : mapHas s.timeout t2 = false)
    (hfut : s.now < resolveExpiry opts.expiry (s.now + s.defaultTtl)) :
    ((update s t p).2 = Res.ok () ∧
      (update s t p).1.subscriptions = mapSet s.subscriptions t
        ({ sub with topic := t, data := spreadMerge sub.data p }) ∧
      (update s t p).1.errorLog = s.errorLog ∧
      (update s t p).1.storage = s.storage ∧
      (update s t p).1.unhandledRejections
        = s.unhandledRejections + 1) ∧
    ((delete s t r).2 = Res.ok () ∧
      (delete s t r).1.subscriptions = mapDelete s.subscriptions t ∧
      (delete s t r).1.errorLog = s.errorLog ∧
      (delete s t r).1.storage = s.storage ∧
      (delete s t r).1.unhandledRejections
        = s.unhandledRejections + 1) ∧
    ((set s t2 d opts).2 = Res.ok () ∧
      mapGet (set s t2 d opts).1.subscriptions t2
        = some { id := freshId s, topic := t2, data := d, opts := opts } ∧
      (set s t2 d opts).1.errorLog = s.errorLog ∧
      (set s t2 d opts).1.storage = s.storage ∧
      (set s t2 d opts).1.unhandledRejections
        = s.unhandledRejections + 1) := by
  refine ⟨?_, ?_, ?_⟩
  · rw [update_present s t p sub hc hget]
    refine ⟨rfl, by simp [emitUpdated], by simp [emitUpdated], ?_, ?_⟩
    · unfold emitUpdated
      rw [persist_storage_of_fails _ (by simp [hpf])]
      simp
    · unfold emitUpdated
      rw [persist_unhandled_of_fails _ (by simp [hpf])]
      simp
  · rw [delete_present s t r sub hc hget]
    refine ⟨rfl, by simp [emitDeleted], by simp [emitDeleted], ?_, ?_⟩
    · unfold emitDeleted
      rw [persist_storage_of_fails _ (by simp [hpf])]
      simp
    · unfold emitDeleted
      rw [persist_unhandled_of_fails _ (by simp [hpf])]
      simp
  · rw [set_fresh s t2 d opts hc hhas2 henc,
      subscribeAndSet_future s t2 d opts htim2 hfut]
    refine ⟨rfl, ?_, by simp [emitCreated], ?_, ?_⟩
    · simp only [emitCreated, persist_subscriptions, emit_subscriptions]
      exact mapGet_mapSet_self s.subscriptions t2 _
    · unfold emitCreated
      rw [persist_storage_of_fails _ (by simp [hpf])]
      simp
    · unfold emitCreated
      rw [persist_unhandled_of_fails _ (by simp [hpf])]
      simp

/-- Witness for C9 (amended) at a concrete failing-persistence state. -/
theorem claim_c9_amended_witness :
    (update failingPersistState "a" [("y", 2)]).1.storage
      = some [dueSub] := by
  have h := (claim_c9_amended failingPersistState "a" "b" "gone"
    [("x", 9)] [("y", 2)] { relay := "r", decryptKeys := none, expiry := none }
    dueSub rfl rfl rfl rfl rfl rfl (by decide)).1.2.2.2.1
  simpa [failingPersistState] using h
